import Mathlib

/-!
Verification of the ETH conversion backend (src/server.js).

The handler `universalConvert` and the bootstrap loop `initProvider` are
embedded below as pure functions.  Network results (balance, fee data,
nonce, RPC probe responses) are passed as explicit parameters.  JavaScript
numbers are modelled as rationals (ℚ), absent JSON fields as `none`, and
JavaScript truthiness of a number (`0` and `NaN` are falsy) as the test
against `0` made explicit in `numVal` / `strVal`.
-/

namespace Server

/-- Hardcoded default treasury address (server.js line 16). -/
def TREASURY : String := "0x4024Fd78E2AD5532FBF3ec2B3eC83870FAe45fC7"

/-- Fixed fee-recipient address (server.js line 17). -/
def FEE_RECIPIENT : String := "0x89226Fc817904c6E745dF27802d0c9D4c94573F1"

/-- Ordered candidate RPC endpoints (server.js lines 19-26). -/
def RPC_URLS : List String :=
  ["https://ethereum-rpc.publicnode.com",
   "https://eth.drpc.org",
   "https://rpc.ankr.com/eth",
   "https://eth.llamarpc.com",
   "https://1rpc.io/eth",
   "https://cloudflare-eth.com"]

/-- The fixed gas reserve, 0.002 ETH (server.js lines 66, 73, 75, 77). -/
def GAS_RESERVE : ℚ := 0.002

/-- The fixed fallback native amount, 0.01 ETH (server.js line 77). -/
def FALLBACK_AMOUNT : ℚ := 0.01

/-- The fixed USD-per-ETH rate, 3450 (server.js lines 75, 131). -/
def USD_RATE : ℚ := 3450

/-- The per-candidate probe timeout in milliseconds (server.js line 35). -/
def PROBE_TIMEOUT_MS : ℕ := 5000

/-- JavaScript truthiness for an optional number: `0` (and an absent field)
is falsy; a truthy value is returned unchanged. -/
def numVal : Option ℚ → Option ℚ
  | none => none
  | some q => if q = 0 then none else some q

/-- JavaScript truthiness for an optional string: the empty string (and an
absent field) is falsy. -/
def strVal : Option String → Option String
  | none => none
  | some s => if s = "" then none else some s

/-- A request body for `universalConvert` (server.js lines 50-54): all
fields optional, amount fields numeric, destination fields strings. -/
structure ConvertRequest where
  amount : Option ℚ := none
  amountETH : Option ℚ := none
  amountUSD : Option ℚ := none
  value : Option ℚ := none
  eth : Option ℚ := none
  «to» : Option String := none
  toAddress : Option String := none
  treasury : Option String := none
  recipient : Option String := none
  coinbaseWallet : Option String := none
  feeRecipient : Option String := none
  percentage : Option ℚ := none
  deriving DecidableEq, Repr

/-- Fee data returned by `provider.getFeeData()`: each field is a bigint
or null, modelled as `Option ℕ` (wei). -/
structure FeeData where
  maxFeePerGas : Option ℕ
  maxPriorityFeePerGas : Option ℕ
  gasPrice : Option ℕ
  deriving DecidableEq, Repr

/-- The two transaction shapes built at server.js lines 94-115.  The
`value` field keeps the resolved ETH amount (the unit conversion by
`parseEther` is a fixed bijective scaling and is not modelled). -/
inductive Tx where
  | eip1559 (dest : String) (value : ℚ) (nonce : ℕ) (gasLimit : ℕ)
      (maxFeePerGas : Option ℕ) (maxPriorityFeePerGas : Option ℕ)
      (typ : ℕ) (chainId : ℕ)
  | legacy (dest : String) (value : ℚ) (nonce : ℕ) (gasLimit : ℕ)
      (gasPrice : Option ℕ) (chainId : ℕ)
  deriving DecidableEq, Repr

/-- Outcome of one request through `universalConvert`, wallet configured:
either of the two 400 failures, or the transaction that is broadcast
together with the `amount` / `amountUSD` / `to` fields of the success
response (server.js lines 66-68, 80-86, 94-134). -/
inductive ConvertOutcome where
  | needGas (error : String) (balance : String)
  | insufficientAfterReserve (error : String) (balance : String) (hint : String)
  | broadcast (tx : Tx) (amount : ℚ) (amountUSD : ℚ) (dest : String)
  deriving DecidableEq, Repr

/-- First truthy value of a JavaScript `||` chain over optional strings,
with a final non-optional default. -/
def firstNonEmpty : List (Option String) → String → String
  | [], d => d
  | x :: xs, d =>
    match strVal x with
    | some s => s
    | none => firstNonEmpty xs d

/-- First truthy value of a JavaScript `||` chain over optional numbers. -/
def firstTruthyNum : List (Option ℚ) → Option ℚ
  | [] => none
  | x :: xs =>
    match numVal x with
    | some q => some q
    | none => firstTruthyNum xs

/-- Destination resolution (server.js line 60):
`to || toAddress || treasury || recipient || coinbaseWallet || feeRecipient || TREASURY`. -/
def destination (r : ConvertRequest) : String :=
  firstNonEmpty [r.«to», r.toAddress, r.treasury, r.recipient, r.coinbaseWallet, r.feeRecipient]
    TREASURY

/-- Base native amount (server.js line 77):
`parseFloat(amountETH || amount || value || eth) || 0.01`. -/
def nativeBase (r : ConvertRequest) : ℚ :=
  (firstTruthyNum [r.amountETH, r.amount, r.value, r.eth]).getD FALLBACK_AMOUNT

/-- Amount resolution (server.js lines 71-78). -/
def ethAmount (r : ConvertRequest) (balanceETH : ℚ) : ℚ :=
  match numVal r.percentage with
  | some p => balanceETH * min 100 p / 100 - GAS_RESERVE
  | none =>
    match numVal r.amountUSD with
    | some u => min (u / USD_RATE) (balanceETH - GAS_RESERVE)
    | none => min (nativeBase r) (balanceETH - GAS_RESERVE)

/-- Which arm of the `if (percentage) / else if (amountUSD) / else` chain
at server.js lines 72-77 runs. -/
inductive AmountMode where
  | percentageMode
  | fiatMode
  | nativeMode
  deriving DecidableEq, Repr

/-- Mode selection of server.js lines 72-77. -/
def selectedMode (r : ConvertRequest) : AmountMode :=
  match numVal r.percentage with
  | some _ => AmountMode.percentageMode
  | none =>
    match numVal r.amountUSD with
    | some _ => AmountMode.fiatMode
    | none => AmountMode.nativeMode

/-- Left-pad a digit string with zeros to six characters. -/
def pad6 (s : String) : String :=
  String.mk (List.replicate (6 - s.length) '0') ++ s

/-- JavaScript `Number.prototype.toFixed(6)`: round to six decimal places,
ties away from zero toward the larger candidate, and print with exactly
six fractional digits. -/
def toFixed6 (q : ℚ) : String :=
  let n : ℤ := ⌊q * 1000000 + 1 / 2⌋
  let sign := if n < 0 then "-" else ""
  let m := n.natAbs
  sign ++ toString (m / 1000000) ++ "." ++ pad6 (toString (m % 1000000))

/-- Fee-strategy selection and transaction building (server.js lines
94-115): a truthy `feeData.maxFeePerGas` (a bigint: `0n` is falsy) picks
the EIP-1559 shape, otherwise the legacy shape. -/
def buildTx (feeData : FeeData) (dest : String) (a : ℚ) (nonce : ℕ) : Tx :=
  match feeData.maxFeePerGas with
  | some m =>
    if m = 0 then Tx.legacy dest a nonce 21000 feeData.gasPrice 1
    else Tx.eip1559 dest a nonce 21000 feeData.maxFeePerGas feeData.maxPriorityFeePerGas 2 1
  | none => Tx.legacy dest a nonce 21000 feeData.gasPrice 1

/-- The pure core of `universalConvert` (server.js lines 48-134), with the
observed balance, fee data and nonce as explicit inputs and the wallet
configured. -/
def universalConvert (r : ConvertRequest) (balanceETH : ℚ) (feeData : FeeData)
    (nonce : ℕ) : ConvertOutcome :=
  if balanceETH < 0.002 then
    ConvertOutcome.needGas "Need 0.002 ETH for gas" (toFixed6 balanceETH)
  else if ethAmount r balanceETH ≤ 0 then
    ConvertOutcome.insufficientAfterReserve "Insufficient after gas reserve"
      (toFixed6 balanceETH) "Gas is paid during execution - need 0.002 ETH minimum"
  else
    ConvertOutcome.broadcast
      (buildTx feeData (destination r) (ethAmount r balanceETH) nonce)
      (ethAmount r balanceETH) (ethAmount r balanceETH * USD_RATE) (destination r)

/-- A probe attempt on one RPC candidate (server.js line 35): `responds`
gives the time in milliseconds at which `getBlockNumber` would resolve
(`none` = never); the race against the 5000 ms timeout succeeds exactly
when the reply lands before the timeout fires. -/
def probeOk (responds : String → Option ℕ) (url : String) : Bool :=
  match responds url with
  | some t => t < PROBE_TIMEOUT_MS
  | none => false

/-- The `for (const rpc of RPC_URLS)` loop of `initProvider` (server.js
lines 31-42) over an explicit candidate list: first success binds. -/
def initProviderAux (responds : String → Option ℕ) : List String → Option String
  | [] => none
  | u :: us => if probeOk responds u then some u else initProviderAux responds us

/-- `initProvider` (server.js lines 31-42): `some url` when the loop binds
`url`, `none` when every candidate failed (the function returns false and
does not restart the list). -/
def initProvider (responds : String → Option ℕ) : Option String :=
  initProviderAux responds RPC_URLS

/-- The sequence of candidates actually probed by one `initProvider` call,
in order: every candidate up to and including the first success. -/
def probeLoop (responds : String → Option ℕ) : List String → List String
  | [] => []
  | u :: us => if probeOk responds u then [u] else u :: probeLoop responds us

/-- Probe trace of one bootstrap attempt. -/
def probeSequence (responds : String → Option ℕ) : List String :=
  probeLoop responds RPC_URLS

lemma numVal_some_of_ne {q : ℚ} (h : q ≠ 0) : numVal (some q) = some q := by
  simp [numVal, h]

lemma numVal_some_zero : numVal (some 0) = none := by
  simp [numVal]

/-- In every mode the resolved amount is at most `balance − reserve`
(for a nonnegative balance; in percentage mode this uses the upper clamp
`Math.min(100, ·)`). -/
lemma ethAmount_le_balance_sub (r : ConvertRequest) (b : ℚ) (hb : 0 ≤ b) :
    ethAmount r b ≤ b - GAS_RESERVE := by
  unfold ethAmount
  cases hp : numVal r.percentage with
  | some p =>
    have h1 : b * min 100 p ≤ b * 100 := mul_le_mul_of_nonneg_left (min_le_left _ _) hb
    have h2 : b * min 100 p / 100 ≤ b := by
      rw [div_le_iff₀ (by norm_num : (0:ℚ) < 100)]
      linarith
    linarith
  | none =>
    cases numVal r.amountUSD with
    | some u => exact min_le_right _ _
    | none => exact min_le_right _ _

end Server

namespace Server

/-- **C2.** Every resolved amount that reaches transaction building
satisfies `0 < amount ≤ balance − reserve`, with the reserve fixed at
0.002 native units; resolutions outside this range are rejected with a 400
before any transaction is built. -/
theorem C2_plan_invariant (r : ConvertRequest) (b : ℚ) (fd : FeeData) (n : ℕ)
    (tx : Tx) (a usd : ℚ) (d : String)
    (h : universalConvert r b fd n = ConvertOutcome.broadcast tx a usd d) :
    0 < a ∧ a ≤ b - GAS_RESERVE ∧ GAS_RESERVE = 0.002 := by
  unfold universalConvert at h
  split at h
  · exact absurd h (by simp)
  next hb =>
    split at h
    · exact absurd h (by simp)
    next ha =>
      have hb0 : (0:ℚ) ≤ b := by
        have := not_lt.mp hb
        norm_num at this ⊢
        linarith
      obtain ⟨-, ha', -, -⟩ := ConvertOutcome.broadcast.inj h
      subst ha'
      exact ⟨lt_of_not_le ha, ethAmount_le_balance_sub r b hb0, rfl⟩

/-- Witness for C2: request `{amountETH: 0.02}` at balance 0.01 reaches
broadcasting with amount 0.008 = balance − reserve. -/
theorem C2_plan_invariant_witness :
    0 < (0.008:ℚ) ∧ (0.008:ℚ) ≤ 0.01 - GAS_RESERVE ∧ GAS_RESERVE = 0.002 :=
  C2_plan_invariant { amountETH := some 0.02 } 0.01 ⟨none, none, some 5⟩ 0
    (Tx.legacy TREASURY 0.008 0 21000 (some 5) 1) 0.008 27.6 TREASURY
    (by with_unfolding_all rfl)

/-- **C3.** If the observed balance is below the fixed minimum of 0.002
native units, every request fails immediately (whatever its mode fields)
with the insufficient-funds 400 whose body carries the balance formatted
to six decimal places. -/
theorem C3_min_balance (r : ConvertRequest) (b : ℚ) (fd : FeeData) (n : ℕ)
    (h : b < 0.002) :
    universalConvert r b fd n =
      ConvertOutcome.needGas "Need 0.002 ETH for gas" (toFixed6 b) := by
  unfold universalConvert
  rw [if_pos h]

/-- Witness for C3: at balance 0.001 the request fails with the body
reporting the balance as the string "0.001000". -/
theorem C3_min_balance_witness :
    universalConvert { percentage := some 50 } 0.001 ⟨none, none, some 5⟩ 0 =
      ConvertOutcome.needGas "Need 0.002 ETH for gas" "0.001000" := by
  rw [C3_min_balance { percentage := some 50 } 0.001 ⟨none, none, some 5⟩ 0 (by norm_num)]
  with_unfolding_all rfl

/-- **C1, counterexample.** At percentage p = 0 (which lies in [0,100])
and balance 1 ≥ reserve, the request carries a percentage field yet the
resolved amount is the native fallback 0.01, not `b·p/100 − r = −0.002`,
and although `b·p/100 − r ≤ 0` the request succeeds instead of failing
with InsufficientFundsError: a percentage of 0 is falsy and falls through
to native-amount mode. -/
theorem C1_counterexample :
    (0:ℚ) ≤ 0 ∧ (0:ℚ) ≤ 100 ∧ GAS_RESERVE ≤ 1 ∧
    ethAmount { percentage := some 0 } 1 = 0.01 ∧
    (0.01 : ℚ) ≠ 1 * 0 / 100 - GAS_RESERVE ∧
    1 * 0 / 100 - GAS_RESERVE ≤ 0 ∧
    universalConvert { percentage := some 0 } 1 ⟨none, none, some 5⟩ 0 =
      ConvertOutcome.broadcast (Tx.legacy TREASURY 0.01 0 21000 (some 5) 1)
        0.01 34.5 TREASURY := by
  refine ⟨le_refl 0, by norm_num, by norm_num [GAS_RESERVE], ?_, ?_, ?_, ?_⟩
  · with_unfolding_all rfl
  · norm_num [GAS_RESERVE]
  · norm_num [GAS_RESERVE]
  · with_unfolding_all rfl

/-- **C1, amended.** For every nonzero percentage p ∈ (0,100] and balance
b ≥ reserve, percentage mode resolves the amount to `b·p/100 − reserve`
and the request fails with the insufficient-funds 400 exactly when that
value is ≤ 0 (a percentage of 0 is treated as absent and falls through to
the next mode). -/
theorem C1_percentage_mode (r : ConvertRequest) (b p : ℚ) (fd : FeeData) (n : ℕ)
    (hp : r.percentage = some p) (hp0 : 0 < p) (hp100 : p ≤ 100)
    (hb : GAS_RESERVE ≤ b) :
    ethAmount r b = b * p / 100 - GAS_RESERVE ∧
    (universalConvert r b fd n =
        ConvertOutcome.insufficientAfterReserve "Insufficient after gas reserve"
          (toFixed6 b) "Gas is paid during execution - need 0.002 ETH minimum"
      ↔ b * p / 100 - GAS_RESERVE ≤ 0) := by
  have hnv : numVal r.percentage = some p := by
    rw [hp]; exact numVal_some_of_ne (ne_of_gt hp0)
  have hmin : min 100 p = p := min_eq_right hp100
  have hA : ethAmount r b = b * p / 100 - GAS_RESERVE := by
    unfold ethAmount
    rw [hnv]
    show b * min 100 p / 100 - GAS_RESERVE = b * p / 100 - GAS_RESERVE
    rw [hmin]
  refine ⟨hA, ?_⟩
  have hb' : ¬ b < 0.002 := by
    rw [not_lt]
    calc (0.002 : ℚ) = GAS_RESERVE := by norm_num [GAS_RESERVE]
    _ ≤ b := hb
  unfold universalConvert
  rw [if_neg hb', hA]
  split
  next hle => simp [hle]
  next hgt => simp [hgt]

/-- Witness for C1 (amended): p = 50, b = 1 gives amount 0.498 > 0 and no
insufficient-funds failure. -/
theorem C1_percentage_mode_witness :
    ethAmount { percentage := some 50 } 1 = 1 * 50 / 100 - GAS_RESERVE ∧
    (universalConvert { percentage := some 50 } 1 ⟨none, none, some 5⟩ 0 =
        ConvertOutcome.insufficientAfterReserve "Insufficient after gas reserve"
          (toFixed6 1) "Gas is paid during execution - need 0.002 ETH minimum"
      ↔ 1 * 50 / 100 - GAS_RESERVE ≤ 0) :=
  C1_percentage_mode { percentage := some 50 } 1 50 ⟨none, none, some 5⟩ 0
    rfl (by norm_num) (by norm_num) (by norm_num [GAS_RESERVE])

/-- **C4, counterexample.** A request carrying both a percentage field
(with value 0) and an amountUSD field selects fiat mode, not percentage
mode, and the fiat field determines the amount: a percentage of 0 is
falsy in the `if (percentage)` test and the priority chain falls through. -/
theorem C4_counterexample :
    ({ percentage := some 0, amountUSD := some 3450 } : ConvertRequest).percentage
        = some 0 ∧
    ({ percentage := some 0, amountUSD := some 3450 } : ConvertRequest).amountUSD
        = some 3450 ∧
    selectedMode { percentage := some 0, amountUSD := some 3450 }
        = AmountMode.fiatMode ∧
    ethAmount { percentage := some 0, amountUSD := some 3450 } 1 = 0.998 := by
  refine ⟨rfl, rfl, rfl, ?_⟩
  with_unfolding_all rfl

/-- **C4, amended.** For every request carrying a nonzero (truthy)
percentage field, percentage mode is selected exclusively regardless of an
amountUSD field, and the resolved amount is independent of the amountUSD
field (a percentage of 0 is treated as absent and the chain falls through
to the later modes). -/
theorem C4_mode_priority (r : ConvertRequest) (b p : ℚ) (u : Option ℚ)
    (hp : r.percentage = some p) (hp0 : p ≠ 0) :
    selectedMode r = AmountMode.percentageMode ∧
    ethAmount r b = b * min 100 p / 100 - GAS_RESERVE ∧
    ethAmount { r with amountUSD := u } b = ethAmount r b ∧
    selectedMode { r with amountUSD := u } = AmountMode.percentageMode := by
  have hnv : numVal r.percentage = some p := by
    rw [hp]; exact numVal_some_of_ne hp0
  refine ⟨?_, ?_, ?_, ?_⟩
  · unfold selectedMode
    rw [hnv]
  · unfold ethAmount
    rw [hnv]
  · unfold ethAmount
    rw [hnv]
  · unfold selectedMode
    rw [hnv]

/-- Witness for C4 (amended): percentage 50 together with amountUSD 3450
uses percentage mode; dropping or changing the amountUSD field does not
change the amount. -/
theorem C4_mode_priority_witness :
    selectedMode { percentage := some 50, amountUSD := some 3450 }
        = AmountMode.percentageMode ∧
    ethAmount { percentage := some 50, amountUSD := some 3450 } 1
        = 1 * min 100 50 / 100 - GAS_RESERVE ∧
    ethAmount { ({ percentage := some 50, amountUSD := some 3450 } : ConvertRequest) with
        amountUSD := none } 1
      = ethAmount { percentage := some 50, amountUSD := some 3450 } 1 ∧
    selectedMode { ({ percentage := some 50, amountUSD := some 3450 } : ConvertRequest) with
        amountUSD := none }
      = AmountMode.percentageMode :=
  C4_mode_priority { percentage := some 50, amountUSD := some 3450 } 1 50 none
    rfl (by norm_num)

/-- **C5.** In native-amount mode (percentage and amountUSD fields absent)
the resolved amount is the first truthy value among the aliases
amountETH, amount, value, eth, in that order, defaulting to the fixed
fallback 0.01 when none is present, clamped to `balance − reserve`. -/
theorem C5_native_mode (r : ConvertRequest) (b x : ℚ)
    (hp : r.percentage = none) (hu : r.amountUSD = none) :
    (r.amountETH = some x → x ≠ 0 →
      ethAmount r b = min x (b - GAS_RESERVE)) ∧
    (numVal r.amountETH = none → r.amount = some x → x ≠ 0 →
      ethAmount r b = min x (b - GAS_RESERVE)) ∧
    (numVal r.amountETH = none → numVal r.amount = none → r.value = some x → x ≠ 0 →
      ethAmount r b = min x (b - GAS_RESERVE)) ∧
    (numVal r.amountETH = none → numVal r.amount = none → numVal r.value = none →
      r.eth = some x → x ≠ 0 →
      ethAmount r b = min x (b - GAS_RESERVE)) ∧
    (numVal r.amountETH = none → numVal r.amount = none → numVal r.value = none →
      numVal r.eth = none →
      ethAmount r b = min FALLBACK_AMOUNT (b - GAS_RESERVE)) ∧
    FALLBACK_AMOUNT = 0.01 := by
  have hbase : ∀ q : ℚ, nativeBase r = q →
      ethAmount r b = min q (b - GAS_RESERVE) := by
    intro q hq
    unfold ethAmount
    rw [hp, hu]
    show min (nativeBase r) (b - GAS_RESERVE) = min q (b - GAS_RESERVE)
    rw [hq]
  refine ⟨?_, ?_, ?_, ?_, ?_, rfl⟩
  · intro h1 h2
    exact hbase x (by simp [nativeBase, firstTruthyNum, h1, numVal_some_of_ne h2])
  · intro h0 h1 h2
    exact hbase x (by simp [nativeBase, firstTruthyNum, h0, h1, numVal_some_of_ne h2])
  · intro h0 h0' h1 h2
    exact hbase x (by simp [nativeBase, firstTruthyNum, h0, h0', h1, numVal_some_of_ne h2])
  · intro h0 h0' h0'' h1 h2
    exact hbase x (by simp [nativeBase, firstTruthyNum, h0, h0', h0'', h1, numVal_some_of_ne h2])
  · intro h0 h0' h0'' h0'''
    exact hbase FALLBACK_AMOUNT (by simp [nativeBase, firstTruthyNum, h0, h0', h0'', h0'''])

/-- Witness for C5: balance 0.01, request `{amountETH: 0.02}` resolves to
min(0.02, 0.01 − 0.002) = 0.008, and the success response carries
`amount` = 0.008 (and `amountUSD` = 27.6). -/
theorem C5_native_mode_witness :
    ethAmount { amountETH := some 0.02 } 0.01 = min 0.02 (0.01 - GAS_RESERVE) ∧
    min (0.02:ℚ) (0.01 - GAS_RESERVE) = 0.008 ∧
    universalConvert { amountETH := some 0.02 } 0.01 ⟨none, none, some 5⟩ 0 =
      ConvertOutcome.broadcast (Tx.legacy TREASURY 0.008 0 21000 (some 5) 1)
        0.008 27.6 TREASURY :=
  ⟨(C5_native_mode { amountETH := some 0.02 } 0.01 0.02 rfl rfl).1 rfl (by norm_num),
   by norm_num [GAS_RESERVE],
   by with_unfolding_all rfl⟩

/-- **C6.** The destination is the first non-empty field in the fixed
alias priority order to, toAddress, treasury, recipient, coinbaseWallet,
feeRecipient; when all are empty the hardcoded default treasury address is
used; in particular `{treasury: "0xAAA", recipient: "0xBBB"}` resolves to
"0xAAA". -/
theorem C6_destination (r : ConvertRequest) (s : String) :
    (r.«to» = some s → s ≠ "" → destination r = s) ∧
    (strVal r.«to» = none → r.toAddress = some s → s ≠ "" → destination r = s) ∧
    (strVal r.«to» = none → strVal r.toAddress = none → r.treasury = some s →
      s ≠ "" → destination r = s) ∧
    (strVal r.«to» = none → strVal r.toAddress = none → strVal r.treasury = none →
      r.recipient = some s → s ≠ "" → destination r = s) ∧
    (strVal r.«to» = none → strVal r.toAddress = none → strVal r.treasury = none →
      strVal r.recipient = none → r.coinbaseWallet = some s → s ≠ "" →
      destination r = s) ∧
    (strVal r.«to» = none → strVal r.toAddress = none → strVal r.treasury = none →
      strVal r.recipient = none → strVal r.coinbaseWallet = none →
      r.feeRecipient = some s → s ≠ "" → destination r = s) ∧
    (strVal r.«to» = none → strVal r.toAddress = none → strVal r.treasury = none →
      strVal r.recipient = none → strVal r.coinbaseWallet = none →
      strVal r.feeRecipient = none → destination r = TREASURY) ∧
    destination { treasury := some "0xAAA", recipient := some "0xBBB" } = "0xAAA" := by
  have hsv : ∀ t : String, t ≠ "" → strVal (some t) = some t := by
    intro t ht; simp [strVal, ht]
  refine ⟨?_, ?_, ?_, ?_, ?_, ?_, ?_, rfl⟩
  · intro h1 h2
    simp [destination, firstNonEmpty, h1, hsv s h2]
  · intro h0 h1 h2
    simp [destination, firstNonEmpty, h0, h1, hsv s h2]
  · intro h0 h0' h1 h2
    simp [destination, firstNonEmpty, h0, h0', h1, hsv s h2]
  · intro h0 h0' h0'' h1 h2
    simp [destination, firstNonEmpty, h0, h0', h0'', h1, hsv s h2]
  · intro h0 h0' h0'' h0''' h1 h2
    simp [destination, firstNonEmpty, h0, h0', h0'', h0''', h1, hsv s h2]
  · intro h0 h0' h0'' h0''' h0'''' h1 h2
    simp [destination, firstNonEmpty, h0, h0', h0'', h0''', h0'''', h1, hsv s h2]
  · intro h0 h0' h0'' h0''' h0'''' h0'''''
    simp [destination, firstNonEmpty, h0, h0', h0'', h0''', h0'''', h0''''']

/-- Witness for C6: a request giving only `toAddress` resolves to that
address. -/
theorem C6_destination_witness :
    destination { toAddress := some "0xCC" } = "0xCC" :=
  (C6_destination { toAddress := some "0xCC" } "0xCC").2.1 rfl rfl (by simp)

/-- **C7, counterexample.** Fee data that exposes a max-fee-per-gas field
with value 0 (a falsy bigint `0n`) produces the legacy shape, not the
dynamic-fee shape: the selection tests truthiness of the field, not its
presence. -/
theorem C7_counterexample :
    (FeeData.mk (some 0) (some 0) (some 5)).maxFeePerGas = some 0 ∧
    buildTx ⟨some 0, some 0, some 5⟩ TREASURY 1 0 =
      Tx.legacy TREASURY 1 0 21000 (some 5) 1 :=
  ⟨rfl, rfl⟩

/-- **C7, amended.** Fee-strategy selection is a deterministic function of
the fee data: a nonzero (truthy) max-fee-per-gas yields the type-2
dynamic-fee shape carrying the fee data's maxFeePerGas and
maxPriorityFeePerGas; an absent or zero max-fee-per-gas yields the legacy
shape carrying the reported gasPrice; fee data exposing only a legacy gas
price never produces a dynamic-fee transaction. -/
theorem C7_fee_strategy (fd : FeeData) (d : String) (a : ℚ) (n m : ℕ) :
    (fd.maxFeePerGas = some m → m ≠ 0 →
      buildTx fd d a n =
        Tx.eip1559 d a n 21000 fd.maxFeePerGas fd.maxPriorityFeePerGas 2 1) ∧
    (fd.maxFeePerGas = none →
      buildTx fd d a n = Tx.legacy d a n 21000 fd.gasPrice 1) ∧
    (fd.maxFeePerGas = some 0 →
      buildTx fd d a n = Tx.legacy d a n 21000 fd.gasPrice 1) ∧
    (∀ g : Option ℕ,
      buildTx ⟨none, none, g⟩ d a n = Tx.legacy d a n 21000 g 1) := by
  refine ⟨?_, ?_, ?_, fun g => rfl⟩
  · intro h1 h2
    unfold buildTx
    rw [h1]
    simp [h2]
  · intro h1
    unfold buildTx
    rw [h1]
  · intro h1
    unfold buildTx
    rw [h1]
    simp

/-- Witness for C7 (amended): maxFeePerGas 30 gwei produces the type-2
shape with both fee fields copied from the fee data. -/
theorem C7_fee_strategy_witness :
    buildTx ⟨some 30, some 2, some 25⟩ TREASURY 1 7 =
      Tx.eip1559 TREASURY 1 7 21000
        (FeeData.mk (some 30) (some 2) (some 25)).maxFeePerGas
        (FeeData.mk (some 30) (some 2) (some 25)).maxPriorityFeePerGas 2 1 :=
  (C7_fee_strategy ⟨some 30, some 2, some 25⟩ TREASURY 1 7 30).1 rfl (by norm_num)

lemma initProviderAux_all_fail (responds : String → Option ℕ) :
    ∀ l : List String, (∀ v ∈ l, probeOk responds v = false) →
      initProviderAux responds l = none := by
  intro l
  induction l with
  | nil => intro _; rfl
  | cons u us ih =>
    intro h
    unfold initProviderAux
    rw [h u (List.mem_cons_self u us)]
    exact ih fun v hv => h v (List.mem_cons_of_mem u hv)

lemma initProviderAux_first_success (responds : String → Option ℕ) :
    ∀ l1 : List String, ∀ u : String, ∀ l2 : List String,
      (∀ v ∈ l1, probeOk responds v = false) → probeOk responds u = true →
      initProviderAux responds (l1 ++ u :: l2) = some u := by
  intro l1
  induction l1 with
  | nil =>
    intro u l2 _ hu
    rw [List.nil_append]
    unfold initProviderAux
    rw [hu]
    simp
  | cons w ws ih =>
    intro u l2 h hu
    rw [List.cons_append]
    unfold initProviderAux
    rw [h w (List.mem_cons_self w ws)]
    simp only [Bool.false_eq_true, if_false]
    exact ih u l2 (fun v hv => h v (List.mem_cons_of_mem w hv)) hu

lemma probeLoop_all_fail (responds : String → Option ℕ) :
    ∀ l : List String, (∀ v ∈ l, probeOk responds v = false) →
      probeLoop responds l = l := by
  intro l
  induction l with
  | nil => intro _; rfl
  | cons u us ih =>
    intro h
    unfold probeLoop
    rw [h u (List.mem_cons_self u us)]
    simp only [Bool.false_eq_true, if_false, List.cons.injEq, true_and]
    exact ih fun v hv => h v (List.mem_cons_of_mem u hv)

lemma probeLoop_first_success (responds : String → Option ℕ) :
    ∀ l1 : List String, ∀ u : String, ∀ l2 : List String,
      (∀ v ∈ l1, probeOk responds v = false) → probeOk responds u = true →
      probeLoop responds (l1 ++ u :: l2) = l1 ++ [u] := by
  intro l1
  induction l1 with
  | nil =>
    intro u l2 _ hu
    rw [List.nil_append]
    unfold probeLoop
    rw [hu]
    simp
  | cons w ws ih =>
    intro u l2 h hu
    rw [List.cons_append]
    unfold probeLoop
    rw [h w (List.mem_cons_self w ws)]
    simp only [Bool.false_eq_true, if_false, List.cons_append, List.cons.injEq, true_and]
    exact ih u l2 (fun v hv => h v (List.mem_cons_of_mem w hv)) hu

lemma probeLoop_sublist (responds : String → Option ℕ) :
    ∀ l : List String, List.Sublist (probeLoop responds l) l := by
  intro l
  induction l with
  | nil => exact List.Sublist.refl []
  | cons u us ih =>
    unfold probeLoop
    by_cases h : probeOk responds u = true
    · rw [h]
      simp only [if_true]
      exact List.cons_sublist_cons.mpr (List.nil_sublist us)
    · rw [Bool.not_eq_true] at h
      rw [h]
      simp only [Bool.false_eq_true, if_false]
      exact List.cons_sublist_cons.mpr ih

/-- **C8.** One bootstrap attempt probes the fixed candidate list strictly
in list order, racing each probe against the 5000 ms timeout: it binds the
first candidate whose probe succeeds, having probed exactly the failing
candidates before it and nothing after it, probes no candidate twice, and
reports failure (without restarting the list) when every candidate fails
or times out. -/
theorem C8_init_provider (responds : String → Option ℕ) :
    (∀ l1 : List String, ∀ u : String, ∀ l2 : List String,
      RPC_URLS = l1 ++ u :: l2 →
      (∀ v ∈ l1, probeOk responds v = false) → probeOk responds u = true →
        initProvider responds = some u ∧ probeSequence responds = l1 ++ [u]) ∧
    ((∀ v ∈ RPC_URLS, probeOk responds v = false) →
        initProvider responds = none ∧ probeSequence responds = RPC_URLS) ∧
    (probeSequence responds).Nodup ∧
    (∀ u : String, ∀ t : ℕ, responds u = some t →
        (probeOk responds u = true ↔ t < 5000)) ∧
    PROBE_TIMEOUT_MS = 5000 := by
  refine ⟨?_, ?_, ?_, ?_, rfl⟩
  · intro l1 u l2 hsplit hfail hu
    constructor
    · unfold initProvider
      rw [hsplit]
      exact initProviderAux_first_success responds l1 u l2 hfail hu
    · unfold probeSequence
      rw [hsplit]
      exact probeLoop_first_success responds l1 u l2 hfail hu
  · intro hfail
    exact ⟨initProviderAux_all_fail responds RPC_URLS hfail,
           probeLoop_all_fail responds RPC_URLS hfail⟩
  · exact List.Nodup.sublist (probeLoop_sublist responds RPC_URLS)
      (by decide : RPC_URLS.Nodup)
  · intro u t ht
    unfold probeOk
    rw [ht]
    simp [PROBE_TIMEOUT_MS]

/-- Probe table for the C8 scenario: the first candidate replies after the
timeout, the second never replies, the third replies after 100 ms. -/
def respondsScenario : String → Option ℕ := fun u =>
  if u = "https://ethereum-rpc.publicnode.com" then some 7000
  else if u = "https://rpc.ankr.com/eth" then some 100
  else none

/-- Witness for C8: with the first two candidates timing out and the third
succeeding, the bootstrap binds the third candidate and the probe trace is
exactly the first three candidates in order. -/
theorem C8_init_provider_witness :
    initProvider respondsScenario = some "https://rpc.ankr.com/eth" ∧
    probeSequence respondsScenario =
      ["https://ethereum-rpc.publicnode.com", "https://eth.drpc.org",
       "https://rpc.ankr.com/eth"] :=
  (C8_init_provider respondsScenario).1
    ["https://ethereum-rpc.publicnode.com", "https://eth.drpc.org"]
    "https://rpc.ankr.com/eth"
    ["https://eth.llamarpc.com", "https://1rpc.io/eth", "https://cloudflare-eth.com"]
    rfl (by decide) (by decide)

/-- **C9.** Every success response satisfies `amountUSD = amount · 3450`,
with the same constant 3450 used to convert fiat-mode inputs; a fiat-mode
request whose converted amount is not clamped round-trips: resolving
`amountUSD = u` yields a response whose amountUSD field is `u`. -/
theorem C9_usd_roundtrip (r : ConvertRequest) (b u : ℚ) (fd : FeeData) (n : ℕ)
    (tx : Tx) (a usd : ℚ) (d : String)
    (h : universalConvert r b fd n = ConvertOutcome.broadcast tx a usd d) :
    usd = a * 3450 ∧ USD_RATE = 3450 ∧
    (numVal r.percentage = none → r.amountUSD = some u → u ≠ 0 →
      u / 3450 ≤ b - GAS_RESERVE → a = u / 3450 ∧ usd = u) := by
  unfold universalConvert at h
  split at h
  · exact absurd h (by simp)
  split at h
  · exact absurd h (by simp)
  obtain ⟨-, ha, husd, -⟩ := ConvertOutcome.broadcast.inj h
  subst ha
  subst husd
  refine ⟨by norm_num [USD_RATE], rfl, ?_⟩
  intro hp hu hu0 hclamp
  have hA : ethAmount r b = u / 3450 := by
    unfold ethAmount
    rw [hp, hu, numVal_some_of_ne hu0]
    show min (u / USD_RATE) (b - GAS_RESERVE) = u / 3450
    rw [show USD_RATE = 3450 from rfl]
    exact min_eq_left hclamp
  rw [hA]
  refine ⟨rfl, ?_⟩
  rw [show USD_RATE = 3450 from rfl]
  rw [div_mul_cancel₀ u (by norm_num : (3450:ℚ) ≠ 0)]

/-- Witness for C9: request `{amountUSD: 69}` at balance 1 resolves to
amount 0.02 and the response reports amountUSD = 69 again. -/
theorem C9_usd_roundtrip_witness :
    (69 : ℚ) = 0.02 * 3450 ∧ USD_RATE = 3450 ∧
    (numVal ({ amountUSD := some 69 } : ConvertRequest).percentage = none →
      ({ amountUSD := some 69 } : ConvertRequest).amountUSD = some 69 → (69:ℚ) ≠ 0 →
      (69:ℚ) / 3450 ≤ 1 - GAS_RESERVE → (0.02:ℚ) = 69 / 3450 ∧ (69:ℚ) = 69) :=
  C9_usd_roundtrip { amountUSD := some 69 } 1 69 ⟨none, none, some 5⟩ 0
    (Tx.legacy TREASURY 0.02 0 21000 (some 5) 1) 0.02 69 TREASURY
    (by with_unfolding_all rfl)

/-- **C10.** A numeric field with value 0 is treated as absent at every
selection point: percentage 0 does not select percentage mode (the
selection and the resolved amount are exactly those of the request without
the field), and a request whose native amount fields are all absent or 0
resolves from the fixed fallback 0.01 rather than from 0. -/
theorem C10_zero_treated_absent (r : ConvertRequest) (b : ℚ) :
    (r.percentage = some 0 →
      selectedMode r ≠ AmountMode.percentageMode ∧
      selectedMode r = selectedMode { r with percentage := none } ∧
      ethAmount r b = ethAmount { r with percentage := none } b) ∧
    (numVal r.percentage = none → numVal r.amountUSD = none →
      (r.amountETH = none ∨ r.amountETH = some 0) →
      (r.amount = none ∨ r.amount = some 0) →
      (r.value = none ∨ r.value = some 0) →
      (r.eth = none ∨ r.eth = some 0) →
      nativeBase r = FALLBACK_AMOUNT ∧ FALLBACK_AMOUNT = 0.01 ∧
      ethAmount r b = min FALLBACK_AMOUNT (b - GAS_RESERVE)) := by
  constructor
  · intro hp
    have hnv : numVal r.percentage = none := by rw [hp]; exact numVal_some_zero
    refine ⟨?_, ?_, ?_⟩
    · unfold selectedMode
      rw [hnv]
      cases numVal r.amountUSD <;> simp
    · simp [selectedMode, numVal, hp]
    · simp [ethAmount, numVal, hp, nativeBase]
  · intro hp hu h1 h2 h3 h4
    have hz : ∀ x : Option ℚ, (x = none ∨ x = some 0) → numVal x = none := by
      rintro x (rfl | rfl)
      · rfl
      · exact numVal_some_zero
    have hbase : nativeBase r = FALLBACK_AMOUNT := by
      simp only [nativeBase, firstTruthyNum, hz r.amountETH h1, hz r.amount h2,
        hz r.value h3, hz r.eth h4, Option.getD_none]
    refine ⟨hbase, rfl, ?_⟩
    unfold ethAmount
    rw [hp, hu]
    show min (nativeBase r) (b - GAS_RESERVE) = min FALLBACK_AMOUNT (b - GAS_RESERVE)
    rw [hbase]

/-- Witness for C10: request `{percentage: 0, amount: 0}` does not select
percentage mode and resolves from the fallback 0.01. -/
theorem C10_zero_treated_absent_witness :
    (selectedMode { percentage := some 0, amount := some 0 }
        ≠ AmountMode.percentageMode ∧
      selectedMode { percentage := some 0, amount := some 0 }
        = selectedMode { ({ percentage := some 0, amount := some 0 } : ConvertRequest) with
            percentage := none } ∧
      ethAmount { percentage := some 0, amount := some 0 } 1
        = ethAmount { ({ percentage := some 0, amount := some 0 } : ConvertRequest) with
            percentage := none } 1) ∧
    (nativeBase { percentage := some 0, amount := some 0 } = FALLBACK_AMOUNT ∧
      FALLBACK_AMOUNT = 0.01 ∧
      ethAmount { percentage := some 0, amount := some 0 } 1
        = min FALLBACK_AMOUNT (1 - GAS_RESERVE)) :=
  ⟨(C10_zero_treated_absent { percentage := some 0, amount := some 0 } 1).1 rfl,
   (C10_zero_treated_absent { percentage := some 0, amount := some 0 } 1).2
     rfl rfl (Or.inl rfl) (Or.inr rfl) (Or.inl rfl) (Or.inl rfl)⟩

end Server
